import Mathlib

/-!
Verification of the Z-Image-app job lifecycle and access-control subsystem.

This file is a shallow embedding, in Lean 4, of the Python code in
`apps/api/auth.py`, `apps/api/routes/images.py`, `libs/py_core/db.py` and
`libs/py_core/tasks.py`.  Pure helpers become Lean functions; the Redis
cache and the PostgreSQL ledger become explicit state values threaded
through the operations; a Python function that may raise `HTTPException`
becomes a function into `Except Nat _` carrying the HTTP status code.
All definitions are executable so that concrete scenarios evaluate by
`decide` / `rfl`.
-/

/-! ## Python-flavoured string helpers

Lean's core `String.toLower`, `String.trim` and `String.splitOn` are
defined through byte-position recursion that the kernel cannot unfold,
so we re-implement the few Python string operations the embedded code
uses (`str.lower`, `str.strip`, `str.split(",")`, `in` substring test)
by structural recursion over the character list. -/

/-- `s.lower()`: ASCII-style lowering via `Char.toLower`. -/
def pyLower (s : String) : String := ⟨s.data.map Char.toLower⟩

/-- Strip leading and trailing whitespace from a character list. -/
def pyStripChars (l : List Char) : List Char :=
  ((l.dropWhile Char.isWhitespace).reverse.dropWhile Char.isWhitespace).reverse

/-- `s.strip()`: remove surrounding whitespace. -/
def pyStrip (s : String) : String := ⟨pyStripChars s.data⟩

/-- Helper for `pySplitComma`: accumulate the current field. -/
def splitCommaAux : List Char → List Char → List String
  | [], acc => [⟨acc.reverse⟩]
  | c :: rest, acc =>
    if c = ',' then ⟨acc.reverse⟩ :: splitCommaAux rest [] else splitCommaAux rest (c :: acc)

/-- `s.split(",")`. -/
def pySplitComma (s : String) : List String := splitCommaAux s.data []

/-- Does the second list start with the first one? -/
def startsWithChars : List Char → List Char → Bool
  | [], _ => true
  | _ :: _, [] => false
  | a :: as, b :: bs => a = b && startsWithChars as bs

/-- Does the list contain `pat` as a contiguous sublist? -/
def containsChars (pat : List Char) : List Char → Bool
  | [] => pat.isEmpty
  | c :: rest => startsWithChars pat (c :: rest) || containsChars pat rest

/-- Python `pat in s` substring test. -/
def strContains (s pat : String) : Bool := containsChars pat.data s.data

/-- Python truthiness of an `Optional[str]`: `None` and `""` are falsy. -/
def pyTruthy : Option String → Bool
  | none => false
  | some s => s != ""

/-- Python `a or b` on `Optional[str]` values. -/
def pyOr (a b : Option String) : Option String := if pyTruthy a then a else b

/-- Python `a or b` where `a` is an `Optional[str]` and `b` a `str`
(used for `result.status or "PENDING"`). -/
def pyOrStr (a : Option String) (b : String) : String :=
  match a with
  | none => b
  | some s => if s = "" then b else s

/-- Python f-string interpolation of an `Optional[str]` (`None` prints as
`"None"`), as in `f"{USER_TASKS_KEY_PREFIX}{auth_key}"`. -/
def pyFormatOpt : Option String → String
  | none => "None"
  | some s => s

/-! ## Configuration (`libs/py_core/config.py`)

Only the fields the embedded code reads.  `api_admin_key` is
`Optional[str]` in the source (default `"admin"`); `API_ALLOWED_KEYS` is
read from the environment as a raw string (default `""`) and is carried
here as the `api_allowed_keys_env` field. -/

structure Settings where
  api_enable_auth : Bool
  api_admin_key : Option String
  api_allowed_keys_env : String
  deriving Repr, DecidableEq

/-! ## Redis state (`apps/api/auth.py` module constants and client)

The Redis client is modelled as an explicit state: a key/value table for
`SETEX`-written entries (value together with its TTL in seconds) and a
table of lists for `LPUSH`/`LTRIM`.  Redis values are strings; the
redis-py `Encoder` accepts only `bytes`/`str`/`int`/`float` and raises
`DataError` for `None`, so a `SETEX` with a `None` value fails without
writing — this matters for `register_task` below. -/

/-- Source constant `TASK_OWNER_KEY_PREFIX = "zimage:task_owner:"`. -/
def TASK_OWNER_KEY_BASE : String := "zimage:task_owner:"

/-- Source constant `TASK_OWNER_TTL_SECONDS = 7 * 24 * 60 * 60`. -/
def TASK_OWNER_TTL_SECONDS : Nat := 7 * 24 * 60 * 60

/-- Source constant `USER_TASKS_KEY_PREFIX = "zimage:user_tasks:"`. -/
def USER_TASKS_KEY_BASE : String := "zimage:user_tasks:"

/-- Source constant `ALL_TASKS_KEY = "zimage:all_tasks"`. -/
def ALL_TASKS_KEY : String := "zimage:all_tasks"

/-- Source constant `USER_TASKS_MAX_ITEMS = 100`. -/
def USER_TASKS_MAX_ITEMS : Nat := 100

structure RedisState where
  /-- String keys written with `SETEX`: key ↦ (value, ttl seconds). -/
  kv : List (String × String × Nat)
  /-- List keys written with `LPUSH`/`LTRIM`: key ↦ list contents. -/
  lists : List (String × List String)
  deriving Repr, DecidableEq

/-- `GET key` (an absent entry models both a miss and a TTL expiry). -/
def redisGet (st : RedisState) (key : String) : Option String :=
  (st.kv.find? (fun e => e.1 = key)).map (fun e => e.2.1)

/-- `SETEX key ttl value` where the value is an `Optional[str]`.
redis-py raises `DataError` for a `None` value, leaving the store
unchanged; we model that as `Except.error`. -/
def redisSetex (st : RedisState) (key : String) (ttl : Nat) (value : Option String) :
    Except Unit RedisState :=
  match value with
  | none => .error ()
  | some v => .ok { st with kv := (key, v, ttl) :: st.kv.filter (fun e => e.1 ≠ key) }

/-- Read a Redis list (absent key reads as the empty list). -/
def redisListGet (st : RedisState) (key : String) : List String :=
  ((st.lists.find? (fun e => e.1 = key)).map (fun e => e.2)).getD []

/-- Overwrite a Redis list. -/
def redisListSet (st : RedisState) (key : String) (l : List String) : RedisState :=
  { st with lists := (key, l) :: st.lists.filter (fun e => e.1 ≠ key) }

/-- `LPUSH key value`. -/
def redisLpush (st : RedisState) (key : String) (value : String) : RedisState :=
  redisListSet st key (value :: redisListGet st key)

/-- `LTRIM key 0 stop`: keep the first `stop + 1` elements. -/
def redisLtrimHead (st : RedisState) (key : String) (stop : Nat) : RedisState :=
  redisListSet st key ((redisListGet st key).take (stop + 1))

/-! ## Identity resolution (`apps/api/auth.py`) -/

/-- `AuthContext` from `apps/api/auth.py`. -/
structure AuthContext where
  key : Option String
  is_admin : Bool
  deriving Repr, DecidableEq

/-- `is_admin = bool(admin_key) and raw_key == admin_key`. -/
def isAdminKey (s : Settings) (rawKey : Option String) : Bool :=
  pyTruthy s.api_admin_key && rawKey == s.api_admin_key

/-- `_resolve_auth_context` from `apps/api/auth.py`: resolve the
`AuthContext` and apply the `API_ALLOWED_KEYS` whitelist check; a
whitelist miss raises `HTTPException(403)`. -/
def resolve_auth_context (s : Settings) (rawKey : Option String) :
    Except Nat AuthContext :=
  let is_admin := isAdminKey s rawKey
  let allowed_raw := pyStrip s.api_allowed_keys_env
  if s.api_enable_auth && pyTruthy rawKey && !is_admin && allowed_raw != "" then
    let allowed := ((pySplitComma allowed_raw).map pyStrip).filter (fun k => k != "")
    if !allowed.isEmpty && !allowed.contains (rawKey.getD "") then
      .error 403
    else
      .ok ⟨rawKey, is_admin⟩
  else
    .ok ⟨rawKey, is_admin⟩

/-- `get_auth_context` from `apps/api/auth.py` (strict resolver): with
auth enabled a missing/empty key raises `HTTPException(401)`, then the
whitelist check of `_resolve_auth_context` applies. -/
def get_auth_context (s : Settings) (x_auth_key auth_key : Option String) :
    Except Nat AuthContext :=
  let raw_key := pyOr x_auth_key auth_key
  if s.api_enable_auth && !pyTruthy raw_key then
    .error 401
  else
    resolve_auth_context s raw_key

/-- `get_auth_context_optional` from `apps/api/auth.py` (lenient
resolver).  With auth enabled it behaves exactly like the strict one;
with auth disabled a missing key is anonymous. -/
def get_auth_context_optional (s : Settings) (x_auth_key auth_key : Option String) :
    Except Nat AuthContext :=
  let raw_key := pyOr x_auth_key auth_key
  if s.api_enable_auth && !pyTruthy raw_key then
    .error 401
  else
    resolve_auth_context s raw_key

/-! ## Celery result view

`enforce_task_access` receives a `celery.result.AsyncResult`; the only
facts it consults are whether the task completed successfully and, if
so, the result payload.  A successful generation result is the
`GenerationResult` dict built in `libs/py_core/tasks.py`, whose
`"auth_key"` entry is the submitting caller's key (possibly `None`).
`resultDict = none` models a payload that is not a dict. -/

structure ResultDict where
  /-- The `"auth_key"` entry of the result payload (`payload.get("auth_key")`). -/
  authKey : Option String
  deriving Repr, DecidableEq

structure AsyncResultView where
  /-- `result.successful()`. -/
  successful : Bool
  /-- `result.result` when it is a dict, else `none`. -/
  resultDict : Option ResultDict
  deriving Repr, DecidableEq

/-- `enforce_task_access` from `apps/api/auth.py`.  Raising
`HTTPException(code)` is modelled as `Except.error code`; returning
normally (caller authorized) as `Except.ok ()`.  The Redis owner entry
is read from the explicit cache state. -/
def enforce_task_access (s : Settings) (task_id : String) (auth : AuthContext)
    (cache : RedisState) (result : AsyncResultView) : Except Nat Unit :=
  if !s.api_enable_auth then
    .ok ()
  else if auth.is_admin then
    .ok ()
  else if !pyTruthy auth.key then
    .error 401
  else
    match redisGet cache (TASK_OWNER_KEY_BASE ++ task_id) with
    | some owner_key =>
      if some owner_key ≠ auth.key then .error 403 else .ok ()
    | none =>
      if result.successful then
        match result.resultDict with
        | some payload =>
          if pyTruthy payload.authKey && payload.authKey ≠ auth.key then
            .error 403
          else
            .ok ()
        | none => .ok ()
      else
        .ok ()

/-- `register_task` from `apps/api/auth.py`: `SETEX` the owner entry
with the 7-day TTL, then `LPUSH`+`LTRIM` the per-key history list and
the global history list to at most 100 entries.  The endpoint passes
`auth_key : Optional[str]`; a `None` value makes the very first Redis
call (`SETEX`) raise redis-py `DataError`, so in that case the state is
returned unchanged inside `Except.error`. -/
def register_task (st : RedisState) (task_id : String) (auth_key : Option String) :
    Except Unit RedisState :=
  match redisSetex st (TASK_OWNER_KEY_BASE ++ task_id) TASK_OWNER_TTL_SECONDS auth_key with
  | .error e => .error e
  | .ok st1 =>
    let user_list_key := USER_TASKS_KEY_BASE ++ pyFormatOpt auth_key
    let st2 := redisLtrimHead (redisLpush st1 user_list_key task_id)
      user_list_key (USER_TASKS_MAX_ITEMS - 1)
    let st3 := redisLtrimHead (redisLpush st2 ALL_TASKS_KEY task_id)
      ALL_TASKS_KEY (USER_TASKS_MAX_ITEMS - 1)
    .ok st3

/-! ## Job submission (`apps/api/routes/images.py`, `enqueue_image_generation`) -/

instance {ε α : Type} [DecidableEq ε] [DecidableEq α] : DecidableEq (Except ε α) := fun x y =>
  match x, y with
  | .ok a, .ok b =>
    if h : a = b then isTrue (congrArg _ h) else isFalse (fun hh => h (Except.ok.inj hh))
  | .error a, .error b =>
    if h : a = b then isTrue (congrArg _ h) else isFalse (fun hh => h (Except.error.inj hh))
  | .ok _, .error _ => isFalse (fun hh => Except.noConfusion hh)
  | .error _, .ok _ => isFalse (fun hh => Except.noConfusion hh)

/-- Outcome of a `POST /images/generate` request: the HTTP response
(`ok task_id` or an error status code), whether
`generate_image_task.delay(...)` was reached (a Celery job dispatched),
and the resulting Redis state. -/
structure EnqueueOutcome where
  response : Except Nat String
  dispatched : Bool
  redis : RedisState
  deriving Repr, DecidableEq

/-- `enqueue_image_generation` from `apps/api/routes/images.py`.  The
`get_auth_context` dependency runs first (so its 401/403 abort before
any dispatch); then the endpoint re-checks the key when auth is
enabled, dispatches the Celery task (obtaining `newTaskId`), and calls
`register_task`.  An exception escaping `register_task` (the redis-py
`DataError` on a `None` value) propagates as an unhandled 500 after the
task has already been dispatched. -/
def enqueue_image_generation (s : Settings) (x_auth_key auth_key : Option String)
    (st : RedisState) (newTaskId : String) : EnqueueOutcome :=
  match get_auth_context s x_auth_key auth_key with
  | .error code => ⟨.error code, false, st⟩
  | .ok auth =>
    if s.api_enable_auth && !pyTruthy auth.key then
      ⟨.error 401, false, st⟩
    else
      let auth_key_for_task := auth.key
      match register_task st newTaskId auth_key_for_task with
      | .error _ => ⟨.error 500, true, st⟩
      | .ok st2 => ⟨.ok newTaskId, true, st2⟩

/-! ## Durable Ledger (`libs/py_core/db.py`)

The PostgreSQL tables `image_generation_batches` and
`image_generation_tasks` become explicit lists of rows.  Only the
columns the modelled operations read or that the claims mention are
carried (status, batch linkage, counters, seeds, timestamps, owner);
presentation-only columns (prompt, width, error strings, paths,
metadata JSON) do not influence any claim and are elided.  The
migrations are not part of the source tree; the column defaults used by
the plain `INSERT` (counters `0`, `completed_at` `NULL`) are modelled
from the spec's batch data model. -/

structure TaskRow where
  task_id : String
  batch_id : String
  batch_index : Int
  seed : Option Int
  status : String
  deriving Repr, DecidableEq

structure BatchRow where
  id : String
  api_client_id : Option String
  base_seed : Option Int
  batch_size : Int
  success_count : Int
  failed_count : Int
  status : String
  completed_at : Option Nat
  deriving Repr, DecidableEq

structure Ledger where
  batches : List BatchRow
  tasks : List TaskRow
  deriving Repr, DecidableEq

/-- The caller-supplied `metadata` fields consulted by
`_extract_batch_info` (`batch_id` assumed to be a well-formed UUID
string when present; a malformed one behaves like `none`). -/
structure BatchMeta where
  batch_id : Option String
  batch_index : Option Int
  batch_size : Option Int
  deriving Repr, DecidableEq

/-- `_extract_batch_info` from `libs/py_core/db.py`: read
`batch_id`/`batch_index`/`batch_size` out of the metadata, falling back
to a synthetic single-image batch (`freshId` stands for the `uuid4()`
generated on a missing/malformed batch id). -/
def extract_batch_info (meta : Option BatchMeta) (freshId : String) : String × Int × Int :=
  match meta with
  | none => (freshId, 0, 1)
  | some m =>
    let bid := m.batch_id.getD freshId
    let bidx := m.batch_index.getD 0
    let bsize :=
      match m.batch_size with
      | some v => if v > 0 then v else 1
      | none => 1
    (bid, bidx, bsize)

/-- The batch-level upsert inside `record_generation_started`
(`INSERT ... ON CONFLICT (id) DO UPDATE`).  A fresh row is inserted
with status `'running'`; on conflict `api_client_id`, `base_seed` and
`metadata` keep the existing value via `COALESCE`, `batch_size` is
overwritten, the counters and `completed_at` are untouched, and the
status is guarded: `CASE WHEN status = 'pending' THEN 'running' ELSE
status END`. -/
def batchUpsert (led : Ledger) (bid : String) (api_client_id : Option String)
    (base_seed : Option Int) (batch_size : Int) : Ledger :=
  if (led.batches.find? (fun b => b.id = bid)).isSome then
    { led with
      batches := led.batches.map (fun b =>
        if b.id = bid then
          { b with
            api_client_id := b.api_client_id.orElse (fun _ => api_client_id)
            base_seed := b.base_seed.orElse (fun _ => base_seed)
            batch_size := batch_size
            status := if b.status = "pending" then "running" else b.status }
        else b) }
  else
    { led with
      batches := led.batches ++
        [{ id := bid
           api_client_id := api_client_id
           base_seed := base_seed
           batch_size := batch_size
           success_count := 0
           failed_count := 0
           status := "running"
           completed_at := none }] }

/-- The per-image upsert inside `record_generation_started`
(`INSERT ... ON CONFLICT (task_id) DO UPDATE`).  A fresh row is
inserted with status `'running'`; on conflict the row's `status` is set
to `EXCLUDED.status` — i.e. unconditionally back to `'running'` — and
`seed` (with the other spec columns) is overwritten, while `batch_id`
and `batch_index` keep their existing values. -/
def taskUpsert (led : Ledger) (task_id bid : String) (bidx : Int) (seed : Option Int) :
    Ledger :=
  if (led.tasks.find? (fun t => t.task_id = task_id)).isSome then
    { led with
      tasks := led.tasks.map (fun t =>
        if t.task_id = task_id then { t with status := "running", seed := seed } else t) }
  else
    { led with
      tasks := led.tasks ++
        [{ task_id := task_id
           batch_id := bid
           batch_index := bidx
           seed := seed
           status := "running" }] }

/-- `record_generation_started` from `libs/py_core/db.py` (the
DB-visible effect; `_safe_execute` swallowed connectivity errors are
out of scope).  `api_client_id` stands for
`_get_or_create_api_client_id(cur, auth_key)`, `freshId` for the
fallback `uuid4()` of `_extract_batch_info`. -/
def record_generation_started (led : Ledger) (task_id : String)
    (api_client_id : Option String) (seed : Option Int) (meta : Option BatchMeta)
    (freshId : String) : Ledger :=
  let info := extract_batch_info meta freshId
  let bid := info.1
  let bidx := info.2.1
  let bsize := info.2.2
  let base_seed := seed.map (fun v => v - bidx)
  taskUpsert (batchUpsert led bid api_client_id base_seed bsize) task_id bid bidx seed

/-- Count of a batch's member tasks with status `'success'`
(`COUNT(*) FILTER (WHERE status = 'success')`). -/
def ledgerSuccessCount (led : Ledger) (bid : String) : Int :=
  (led.tasks.countP (fun t => t.batch_id = bid && t.status = "success") : Int)

/-- Count of a batch's member tasks with status `'error'` or
`'cancelled'` (`COUNT(*) FILTER (WHERE status IN ('error','cancelled'))`). -/
def ledgerFailedCount (led : Ledger) (bid : String) : Int :=
  (led.tasks.countP
    (fun t => t.batch_id = bid && (t.status = "error" || t.status = "cancelled")) : Int)

/-- The per-row effect of the `UPDATE` in `_update_batch_counters`,
given the freshly computed counts `s`/`f` and the transaction time
`now` (for `NOW()`). -/
def applyBatchCounters (s f : Int) (now : Nat) (b : BatchRow) : BatchRow :=
  { b with
    success_count := s
    failed_count := f
    status :=
      if s + f ≥ b.batch_size then (if f = 0 then "success" else "partial")
      else "running"
    completed_at := if s + f ≥ b.batch_size then some now else b.completed_at }

/-- `_update_batch_counters` from `libs/py_core/db.py`: recompute the
success/failed counts over the batch's task rows and derive the batch
status and `completed_at` in a single atomic `UPDATE`. -/
def update_batch_counters (led : Ledger) (bid : String) (now : Nat) : Ledger :=
  let s := ledgerSuccessCount led bid
  let f := ledgerFailedCount led bid
  { led with
    batches := led.batches.map (fun b => if b.id = bid then applyBatchCounters s f now b else b) }

/-- `record_generation_succeeded` from `libs/py_core/db.py` (status
effect): set the task row's status to `'success'` (clearing error
columns, overwriting result columns — elided) and, when the row exists
(`RETURNING batch_id`), recompute its batch's counters. -/
def record_generation_succeeded (led : Ledger) (task_id : String) (now : Nat) : Ledger :=
  match led.tasks.find? (fun t => t.task_id = task_id) with
  | none => led
  | some row =>
    let led1 := { led with
      tasks := led.tasks.map (fun t =>
        if t.task_id = task_id then { t with status := "success" } else t) }
    update_batch_counters led1 row.batch_id now

/-- `record_generation_failed` from `libs/py_core/db.py` (status
effect): set the task row's status to `'error'` (recording the error
columns — elided) and, when the row exists, recompute its batch's
counters. -/
def record_generation_failed (led : Ledger) (task_id : String) (now : Nat) : Ledger :=
  match led.tasks.find? (fun t => t.task_id = task_id) with
  | none => led
  | some row =>
    let led1 := { led with
      tasks := led.tasks.map (fun t =>
        if t.task_id = task_id then { t with status := "error" } else t) }
    update_batch_counters led1 row.batch_id now

/-- Look up a batch row by id. -/
def getBatch (led : Ledger) (bid : String) : Option BatchRow :=
  led.batches.find? (fun b => b.id = bid)

/-- Look up a task row by id. -/
def getTask (led : Ledger) (task_id : String) : Option TaskRow :=
  led.tasks.find? (fun t => t.task_id = task_id)

/-- A batch status is terminal when it is `'success'` or `'partial'`. -/
def isTerminalBatchStatus (st : String) : Bool :=
  st = "success" || st = "partial"

/-! ## Execution error classification (`libs/py_core/tasks.py`) -/

/-- The facts about a Python exception that
`_classify_generation_exception` consults: `str(exc)` and the dynamic
type tests.  `ZImageNotAvailable` is a distinct class (a subclass of
`RuntimeError`), so the four type flags are mutually independent
fields. -/
structure ExcInfo where
  message : String
  isZImageNotAvailable : Bool
  isModuleNotFoundError : Bool
  isFileNotFoundError : Bool
  deriving Repr, DecidableEq

/-- Hint for `gpu_oom`. -/
def HINT_GPU_OOM : String := "GPU 显存不足，请降低分辨率或 steps 后重试。"

/-- Hint for `dependency_missing` via `ZImageNotAvailable`. -/
def HINT_DEP_ZIMAGE : String := "推理环境缺少必要依赖，请检查 worker 日志。"

/-- Hint for `dependency_missing` via `ModuleNotFoundError`. -/
def HINT_DEP_MODULE : String := "Python 依赖缺失，请在 worker 环境安装相应库。"

/-- Hint for `model_missing`. -/
def HINT_MODEL_MISSING : String := "未找到模型权重，请确认 MODELS_DIR 是否已准备完成。"

/-- Hint for `internal_error`. -/
def HINT_INTERNAL : String := "生成过程中出现未知异常，请稍后重试。"

/-- `_classify_generation_exception` from `libs/py_core/tasks.py`: map
an exception to a `(code, hint)` pair.  The message is stripped and
lowered, then matched against the out-of-memory signals first; the
recognized exception types follow; everything else is
`internal_error`. -/
def classify_generation_exception (e : ExcInfo) : String × String :=
  let message := pyStrip e.message
  let lowered := pyLower message
  if strContains lowered "out of memory" || strContains lowered "cuda error" then
    ("gpu_oom", HINT_GPU_OOM)
  else if e.isZImageNotAvailable then
    ("dependency_missing", HINT_DEP_ZIMAGE)
  else if e.isModuleNotFoundError then
    ("dependency_missing", HINT_DEP_MODULE)
  else if e.isFileNotFoundError then
    ("model_missing", HINT_MODEL_MISSING)
  else
    ("internal_error", HINT_INTERNAL)

/-- The structured payload built by `_serialize_generation_error` in
`libs/py_core/tasks.py` (the JSON encoding of this dict is abstracted):
`{"code": code, "message": hint}` plus `"detail"` when truthy. -/
structure GenerationErrorPayload where
  code : String
  message : String
  detail : Option String
  deriving Repr, DecidableEq

/-- `_serialize_generation_error` from `libs/py_core/tasks.py`
(modelled at the dict level). -/
def serialize_generation_error (code hint : String) (detail : Option String) :
    GenerationErrorPayload :=
  { code := code
    message := hint
    detail := if pyTruthy detail then detail else none }

/-- The failure branch of `generate_image_task` in
`libs/py_core/tasks.py`: classify the exception, record the failure,
and raise a `RuntimeError` carrying the serialized structured error
with `detail = str(exc)`. -/
def generate_image_task_error_payload (e : ExcInfo) : GenerationErrorPayload :=
  let classified := classify_generation_exception e
  serialize_generation_error classified.1 classified.2 (some e.message)

/-- The fixed user-facing hints; none of them is derived from the
exception text. -/
def FIXED_HINTS : List String :=
  [HINT_GPU_OOM, HINT_DEP_ZIMAGE, HINT_DEP_MODULE, HINT_MODEL_MISSING, HINT_INTERNAL]

/-! ## Cancel endpoint (`apps/api/routes/images.py`, `cancel_task`) -/

/-- The response model `CancelTaskResponse`. -/
structure CancelResp where
  task_id : String
  status : String
  message : String
  deriving Repr, DecidableEq

/-- The Celery terminal states consulted by `cancel_task`:
`{"SUCCESS", "FAILURE", "REVOKED"}`. -/
def CELERY_TERMINAL_STATES : List String := ["SUCCESS", "FAILURE", "REVOKED"]

/-- `cancel_task` from `apps/api/routes/images.py`, after the
access-control check: given the backend-reported status
(`result.status`, `None`/empty coerced to `"PENDING"`), return whether
`celery_app.control.revoke` was signalled together with the HTTP
response. -/
def cancel_task (task_id : String) (backendStatus : Option String) : Bool × CancelResp :=
  let status := pyOrStr backendStatus "PENDING"
  if CELERY_TERMINAL_STATES.contains status then
    (false,
      { task_id := task_id
        status := status
        message := if status ≠ "REVOKED" then "Task already completed" else "Task already cancelled" })
  else
    (true,
      { task_id := task_id
        status := "CANCELLED"
        message := "Cancellation requested" })

/-! ## Soft delete and history visibility
(`apps/api/routes/images.py`, `soft_delete_history_item` / `list_history`)

The whole system state relevant to the frame claim: the ledger, the
Redis cache, the stored artifacts (object storage keys) and the
Execution Backend's result records. -/

structure World where
  ledger : Ledger
  redis : RedisState
  artifacts : List String
  celeryResults : List (String × String)
  deriving Repr, DecidableEq

/-- The response model `DeleteTaskResponse`. -/
structure DeleteResp where
  task_id : String
  status : String
  message : String
  deriving Repr, DecidableEq

/-- The batch ids a history request scoped to `filterClient` can ever
surface: both `GET /history` and `GET /history/{batch_id}` select from
`image_generation_batches`, adding `api_client_id = %s` when the caller
resolves to a client id (`LIMIT`/`OFFSET` only choose a subset of
these). -/
def listedBatchIds (led : Ledger) (filterClient : Option String) : List String :=
  (led.batches.filter (fun b =>
    match filterClient with
    | none => true
    | some cid => b.api_client_id = some cid)).map (fun b => b.id)

/-- The `DELETE FROM image_generation_batches WHERE id = %s [AND
api_client_id = %s]` row predicate. -/
def deleteMatches (batch_id : String) (filterClient : Option String) (b : BatchRow) : Bool :=
  b.id = batch_id &&
    (match filterClient with
     | none => true
     | some cid => b.api_client_id = some cid)

/-- The `DELETE ... ; deleted = cur.rowcount; 404 on deleted == 0` part
of `soft_delete_history_item`, with the resolved owner filter. -/
def deleteFromBatches (w : World) (batch_id : String) (filterClient : Option String) :
    Except Nat DeleteResp × World :=
  let kept := w.ledger.batches.filter (fun b => !deleteMatches batch_id filterClient b)
  let deleted := w.ledger.batches.length - kept.length
  if deleted = 0 then
    (.error 404, w)
  else
    (.ok { task_id := batch_id, status := "deleted", message := "Batch deleted from history" },
      { w with ledger := { w.ledger with batches := kept } })

/-- `soft_delete_history_item` from `apps/api/routes/images.py`, after
the lenient auth dependency has produced `auth`.  `clientIdOf` stands
for `get_api_client_id_for_key` (the SHA-256-derived stable client id;
`none` exactly when the key is falsy).  Returns the HTTP response and
the resulting world. -/
def soft_delete_history_item (s : Settings) (clientIdOf : String → Option String)
    (auth : AuthContext) (w : World) (batch_id : String) :
    Except Nat DeleteResp × World :=
  if s.api_enable_auth && !auth.is_admin then
    if !pyTruthy auth.key then
      (.error 401, w)
    else
      match clientIdOf (auth.key.getD "") with
      | none => (.error 403, w)
      | some cid => deleteFromBatches w batch_id (some cid)
  else
    deleteFromBatches w batch_id none

/-- The parsed whitelist of `_resolve_auth_context`:
`{k.strip() for k in allowed_raw.split(",") if k.strip()}` computed on
`allowed_raw = os.getenv("API_ALLOWED_KEYS", "").strip()`. -/
def parsedAllowedKeys (s : Settings) : List String :=
  ((pySplitComma (pyStrip s.api_allowed_keys_env)).map pyStrip).filter (fun k => k != "")

/-- The out-of-memory signal test of `_classify_generation_exception`:
case-insensitive substring match of `"out of memory"` or `"cuda error"`
against the stripped exception message. -/
def oomSignal (msg : String) : Bool :=
  let lowered := pyLower (pyStrip msg)
  strContains lowered "out of memory" || strContains lowered "cuda error"

/-- Number of task rows recorded under a batch id. -/
def ledgerBatchRowCount (led : Ledger) (bid : String) : Int :=
  (led.tasks.countP (fun t => t.batch_id = bid) : Int)

/-! ## Concrete scenarios

The fan-out batch metadata (`batch_id`/`batch_index`/`batch_size`) is
supplied by the client on each submission and is never cross-validated
server-side (`enqueue_image_generation` forwards `payload.metadata`
verbatim to the task, and `_extract_batch_info` reads it back), so the
ledger can legitimately receive more started items for a batch than its
declared `batch_size`. -/

/-- Two distinct jobs recorded into batch `"b"` that both declare
`batch_size = 1`, then both succeed. -/
def c3ScenarioLedger : Ledger :=
  record_generation_succeeded
    (record_generation_succeeded
      (record_generation_started
        (record_generation_started ⟨[], []⟩ "t1" none none
          (some ⟨some "b", some 0, some 1⟩) "f1")
        "t2" none none (some ⟨some "b", some 1, some 1⟩) "f2")
      "t1" 10)
    "t2" 20

/-- One job in a single-item batch `"b"`, run to success. -/
def c4ScenarioAfterSuccess : Ledger :=
  record_generation_succeeded
    (record_generation_started ⟨[], []⟩ "t1" none none
      (some ⟨some "b", some 0, some 1⟩) "f1")
    "t1" 5

/-- The same ledger after a redelivered "job started" notification for
the already-successful job `"t1"`. -/
def c4ScenarioAfterRestart : Ledger :=
  record_generation_started c4ScenarioAfterSuccess "t1" none none
    (some ⟨some "b", some 0, some 1⟩) "f1"

/-- A world holding one completed batch owned by client `"key_A"`,
one stored artifact and one Execution Backend result record. -/
def c6World : World :=
  { ledger :=
      { batches := [{ id := "b1", api_client_id := some "key_A", base_seed := none,
                      batch_size := 1, success_count := 1, failed_count := 0,
                      status := "success", completed_at := some 3 }]
        tasks := [] }
    redis := ⟨[], []⟩
    artifacts := ["20240101/img.png"]
    celeryResults := [("t1", "result")] }

/-! ## Theorems -/

/-- C1: With global auth enabled, for every job whose ownership-cache
entry is present, `enforce_task_access` raises 403 when the cached
owner differs from the caller's non-empty credential and authorizes
when it matches; an admin caller is always authorized; a caller with no
credential gets 401; and with global auth disabled every caller is
authorized. -/
theorem c1_enforce_task_access_cached_owner
    (s : Settings) (tid : String) (cache : RedisState) (res : AsyncResultView)
    (owner : String)
    (hOwner : redisGet cache (TASK_OWNER_KEY_BASE ++ tid) = some owner) :
    (∀ k : String, s.api_enable_auth = true → k ≠ "" →
      (owner ≠ k → enforce_task_access s tid ⟨some k, false⟩ cache res = .error 403) ∧
      (owner = k → enforce_task_access s tid ⟨some k, false⟩ cache res = .ok ())) ∧
    (∀ key : Option String, enforce_task_access s tid ⟨key, true⟩ cache res = .ok ()) ∧
    (s.api_enable_auth = true → ∀ key : Option String, pyTruthy key = false →
      enforce_task_access s tid ⟨key, false⟩ cache res = .error 401) ∧
    (s.api_enable_auth = false → ∀ auth : AuthContext,
      enforce_task_access s tid auth cache res = .ok ()) := by
  refine ⟨?_, ?_, ?_, ?_⟩
  · intro k hauth hk
    refine ⟨fun hne => ?_, fun heq => ?_⟩
    · simp [enforce_task_access, hauth, pyTruthy, hk, hOwner, hne]
    · simp [enforce_task_access, hauth, pyTruthy, hk, hOwner, heq]
  · intro key
    by_cases h : s.api_enable_auth <;> simp [enforce_task_access, h]
  · intro hauth key hkey
    simp [enforce_task_access, hauth, hkey]
  · intro hdis auth
    simp [enforce_task_access, hdis]

/-- C1 witness: concrete settings with auth enabled, job `"t1"` owned
by `"B"` in the cache; caller `"A"` is refused with 403. -/
theorem c1_witness :
    redisGet ⟨[("zimage:task_owner:t1", "B", 604800)], []⟩
      (TASK_OWNER_KEY_BASE ++ "t1") = some "B" ∧
    enforce_task_access ⟨true, some "adm", ""⟩ "t1" ⟨some "A", false⟩
      ⟨[("zimage:task_owner:t1", "B", 604800)], []⟩ ⟨false, none⟩ = .error 403 :=
  ⟨by decide,
    ((c1_enforce_task_access_cached_owner ⟨true, some "adm", ""⟩ "t1"
      ⟨[("zimage:task_owner:t1", "B", 604800)], []⟩ ⟨false, none⟩ "B"
      (by decide)).1 "A" rfl (by decide)).1 (by decide)⟩

/-- C2: When the ownership-cache entry for a job is absent and the job
completed successfully, `enforce_task_access` consults the `auth_key`
field embedded in the result payload: present-and-different raises 403;
matching, or no owner claim retrievable anywhere (payload not a dict,
or a falsy `auth_key`), authorizes the caller. -/
theorem c2_enforce_fallback_result_owner
    (s : Settings) (tid k : String) (cache : RedisState) (res : AsyncResultView)
    (hauth : s.api_enable_auth = true) (hk : k ≠ "")
    (hmiss : redisGet cache (TASK_OWNER_KEY_BASE ++ tid) = none)
    (hsucc : res.successful = true) :
    (∀ payload owner, res.resultDict = some payload → payload.authKey = some owner →
      owner ≠ "" → owner ≠ k →
      enforce_task_access s tid ⟨some k, false⟩ cache res = .error 403) ∧
    (∀ payload, res.resultDict = some payload → payload.authKey = some k →
      enforce_task_access s tid ⟨some k, false⟩ cache res = .ok ()) ∧
    (∀ payload, res.resultDict = some payload → pyTruthy payload.authKey = false →
      enforce_task_access s tid ⟨some k, false⟩ cache res = .ok ()) ∧
    (res.resultDict = none →
      enforce_task_access s tid ⟨some k, false⟩ cache res = .ok ()) := by
  refine ⟨?_, ?_, ?_, ?_⟩
  · intro payload owner hpd hak howner hne
    simp [enforce_task_access, hauth, pyTruthy, hk, hmiss, hsucc, hpd, hak, howner, hne]
  · intro payload hpd hak
    simp [enforce_task_access, hauth, pyTruthy, hk, hmiss, hsucc, hpd, hak]
  · intro payload hpd hfalsy
    cases hak : payload.authKey with
    | none => simp [enforce_task_access, hauth, pyTruthy, hk, hmiss, hsucc, hpd, hak]
    | some o =>
      rw [hak] at hfalsy
      have ho : o = "" := by simpa [pyTruthy] using hfalsy
      subst ho
      simp [enforce_task_access, hauth, pyTruthy, hk, hmiss, hsucc, hpd, hak]
  · intro hpd
    simp [enforce_task_access, hauth, pyTruthy, hk, hmiss, hsucc, hpd]

/-- C2 witness: empty cache, successfully completed job whose payload
records owner `"B"`; caller `"A"` is refused with 403. -/
theorem c2_witness :
    redisGet ⟨[], []⟩ (TASK_OWNER_KEY_BASE ++ "t1") = none ∧
    enforce_task_access ⟨true, some "adm", ""⟩ "t1" ⟨some "A", false⟩ ⟨[], []⟩
      ⟨true, some ⟨some "B"⟩⟩ = .error 403 :=
  ⟨by decide,
    (c2_enforce_fallback_result_owner ⟨true, some "adm", ""⟩ "t1" "A" ⟨[], []⟩
      ⟨true, some ⟨some "B"⟩⟩ rfl (by decide) (by decide) rfl).1 ⟨some "B"⟩ "B" rfl rfl
      (by decide) (by decide)⟩

/-- C10: With global auth enabled, when the ownership-cache entry is
absent and the Execution Backend result is not in a successful state,
`enforce_task_access` authorizes every caller presenting any non-empty
non-admin credential — the result-payload owner fallback is consulted
only for successfully completed tasks. -/
theorem c10_enforce_nonsuccess_cache_miss
    (s : Settings) (tid k : String) (cache : RedisState) (res : AsyncResultView)
    (hauth : s.api_enable_auth = true) (hk : k ≠ "")
    (hmiss : redisGet cache (TASK_OWNER_KEY_BASE ++ tid) = none)
    (hns : res.successful = false) :
    enforce_task_access s tid ⟨some k, false⟩ cache res = .ok () := by
  simp [enforce_task_access, hauth, pyTruthy, hk, hmiss, hns]

/-- C10 witness: empty cache, failed/in-flight job, arbitrary non-owner
credential `"A"` is authorized. -/
theorem c10_witness :
    redisGet ⟨[], []⟩ (TASK_OWNER_KEY_BASE ++ "t1") = none ∧
    enforce_task_access ⟨true, some "adm", ""⟩ "t1" ⟨some "A", false⟩ ⟨[], []⟩
      ⟨false, none⟩ = .ok () :=
  ⟨by decide,
    c10_enforce_nonsuccess_cache_miss ⟨true, some "adm", ""⟩ "t1" "A" ⟨[], []⟩
      ⟨false, none⟩ rfl (by decide) (by decide) rfl⟩

/-- C5 counterexample: the claim says an unlisted non-admin key is
rejected with 403 independently of whether global auth is enabled.  With
`API_ENABLE_AUTH=false`, `API_ALLOWED_KEYS="k1,k2"` and credential
`"k3"`, the whitelist check is skipped (`_resolve_auth_context` guards
it with `settings.api_enable_auth`): the request succeeds and a job is
dispatched. -/
theorem c5_counterexample :
    resolve_auth_context ⟨false, some "adm", "k1,k2"⟩ (some "k3") =
      .ok ⟨some "k3", false⟩ ∧
    (enqueue_image_generation ⟨false, some "adm", "k1,k2"⟩ (some "k3") none
      ⟨[], []⟩ "t1").response = .ok "t1" ∧
    (enqueue_image_generation ⟨false, some "adm", "k1,k2"⟩ (some "k3") none
      ⟨[], []⟩ "t1").dispatched = true := by
  decide

/-- C5 amended: only when global auth is enabled does a configured
non-empty allow-list reject an unlisted, non-empty, non-admin
credential with 403 before any job is dispatched; with global auth
disabled the allow-list is not enforced and resolution always
succeeds. -/
theorem c5_amended_allowlist
    (s : Settings) (k tid : String) (st : RedisState)
    (hauth : s.api_enable_auth = true) (hk : k ≠ "")
    (hadmin : isAdminKey s (some k) = false)
    (hne : parsedAllowedKeys s ≠ [])
    (hmiss : (parsedAllowedKeys s).contains k = false) :
    resolve_auth_context s (some k) = .error 403 ∧
    (enqueue_image_generation s (some k) none st tid).response = .error 403 ∧
    (enqueue_image_generation s (some k) none st tid).dispatched = false ∧
    (enqueue_image_generation s (some k) none st tid).redis = st ∧
    (∀ s2 : Settings, s2.api_enable_auth = false → ∀ rawKey : Option String,
      resolve_auth_context s2 rawKey = .ok ⟨rawKey, isAdminKey s2 rawKey⟩) := by
  have hraw : pyStrip s.api_allowed_keys_env ≠ "" := by
    intro hempty
    apply hne
    unfold parsedAllowedKeys
    rw [hempty]
    decide
  have hall : (parsedAllowedKeys s).isEmpty = false := by
    cases hcase : parsedAllowedKeys s with
    | nil => exact absurd hcase hne
    | cons a l => rfl
  have hres : resolve_auth_context s (some k) = .error 403 := by
    unfold resolve_auth_context
    simp only [parsedAllowedKeys] at hall hmiss
    simp only [hauth, pyTruthy, hadmin, Bool.not_false, Bool.true_and, Bool.and_true]
    rw [if_pos, if_pos]
    · rw [Option.getD_some, hall, hmiss]
      decide
    · simp [hk, hraw, bne_iff_ne]
  refine ⟨hres, ?_, ?_, ?_, ?_⟩
  · simp [enqueue_image_generation, get_auth_context, pyOr, pyTruthy, hk, hauth, hres]
  · simp [enqueue_image_generation, get_auth_context, pyOr, pyTruthy, hk, hauth, hres]
  · simp [enqueue_image_generation, get_auth_context, pyOr, pyTruthy, hk, hauth, hres]
  · intro s2 hdis rawKey
    simp [resolve_auth_context, hdis]

/-- C5 witness: auth enabled, allow-list `"k1,k2"`, unlisted non-admin
key `"k3"`: resolution fails with 403 and nothing is dispatched. -/
theorem c5_witness :
    parsedAllowedKeys ⟨true, some "adm", "k1,k2"⟩ ≠ [] ∧
    (parsedAllowedKeys ⟨true, some "adm", "k1,k2"⟩).contains "k3" = false ∧
    resolve_auth_context ⟨true, some "adm", "k1,k2"⟩ (some "k3") = .error 403 ∧
    (enqueue_image_generation ⟨true, some "adm", "k1,k2"⟩ (some "k3") none
      ⟨[], []⟩ "t1").dispatched = false :=
  have h := c5_amended_allowlist ⟨true, some "adm", "k1,k2"⟩ "k3" "t1" ⟨[], []⟩
    rfl (by decide) (by decide) (by decide) (by decide)
  ⟨by decide, by decide, h.1, h.2.2.1⟩

/-- C8 (code bug): with auth disabled and no credential,
`enqueue_image_generation` dispatches the Celery task but then
`register_task(task.id, None)` fails at the very first Redis call —
`SETEX` with a `None` value raises redis-py `DataError` — so contrary
to the claim (and to the code's own comment) the task id is never
appended to the global history list, no ownership entry is written, and
the request fails with an unhandled server error.  A keyed submission
under the same settings is recorded normally, isolating the anonymous
path as the broken one. -/
theorem c8_anonymous_submission_bug :
    (enqueue_image_generation ⟨false, some "adm", ""⟩ none none ⟨[], []⟩ "t1").response
      = .error 500 ∧
    (enqueue_image_generation ⟨false, some "adm", ""⟩ none none ⟨[], []⟩ "t1").dispatched
      = true ∧
    redisListGet (enqueue_image_generation ⟨false, some "adm", ""⟩ none none
      ⟨[], []⟩ "t1").redis ALL_TASKS_KEY = [] ∧
    redisGet (enqueue_image_generation ⟨false, some "adm", ""⟩ none none
      ⟨[], []⟩ "t1").redis (TASK_OWNER_KEY_BASE ++ "t1") = none ∧
    register_task ⟨[], []⟩ "t1" none = .error () ∧
    (enqueue_image_generation ⟨false, some "adm", ""⟩ (some "k1") none ⟨[], []⟩ "t1").response
      = .ok "t1" ∧
    redisListGet (enqueue_image_generation ⟨false, some "adm", ""⟩ (some "k1") none
      ⟨[], []⟩ "t1").redis ALL_TASKS_KEY = ["t1"] := by
  decide

/-- C7: cancelling a job whose Celery status is already terminal
(`SUCCESS`, `FAILURE` or `REVOKED`) never errors: the endpoint returns
the job id, the existing terminal status and an informational message
without signalling the backend; since the backend state is untouched, a
repeated cancel yields the same response; only a non-terminal status
triggers a revoke. -/
theorem c7_cancel_terminal_idempotent
    (tid status : String)
    (hterm : CELERY_TERMINAL_STATES.contains status = true) :
    (cancel_task tid (some status)).1 = false ∧
    (cancel_task tid (some status)).2 =
      { task_id := tid, status := status,
        message := if status ≠ "REVOKED" then "Task already completed"
                   else "Task already cancelled" } ∧
    cancel_task tid (some ((cancel_task tid (some status)).2.status)) =
      cancel_task tid (some status) ∧
    (∀ st2 : Option String, CELERY_TERMINAL_STATES.contains (pyOrStr st2 "PENDING") = false →
      (cancel_task tid st2).1 = true) := by
  have hnonempty : status ≠ "" := by
    intro h
    subst h
    simp [CELERY_TERMINAL_STATES] at hterm
  have hpy : pyOrStr (some status) "PENDING" = status := by
    simp [pyOrStr, hnonempty]
  have hmem : status ∈ CELERY_TERMINAL_STATES := by simpa using hterm
  refine ⟨?_, ?_, ?_, ?_⟩
  · simp [cancel_task, hpy, hmem]
  · simp [cancel_task, hpy, hmem]
  · have hst : (cancel_task tid (some status)).2.status = status := by
      simp [cancel_task, hpy, hmem]
    rw [hst]
  · intro st2 hn
    have hn2 : pyOrStr st2 "PENDING" ∉ CELERY_TERMINAL_STATES := by simpa using hn
    simp [cancel_task, hn2]

/-- C7 witness: cancelling a `SUCCESS` job returns the status with an
informational message and signals no revoke. -/
theorem c7_witness :
    CELERY_TERMINAL_STATES.contains "SUCCESS" = true ∧
    (cancel_task "t1" (some "SUCCESS")).1 = false ∧
    (cancel_task "t1" (some "SUCCESS")).2 =
      { task_id := "t1", status := "SUCCESS", message := "Task already completed" } :=
  have h := c7_cancel_terminal_idempotent "t1" "SUCCESS" (by decide)
  ⟨by decide, h.1, by simpa using h.2.1⟩

/-- C9: `_classify_generation_exception` yields `gpu_oom` whenever the
stripped, lowered exception message contains an out-of-memory signal;
`dependency_missing` / `model_missing` for the recognized exception
types (in the source's priority order); `internal_error` for everything
else; and the user-facing hint always comes from the fixed hint set —
the raw exception text only ever lands in the optional `detail` field
of the serialized error payload. -/
theorem c9_classify_generation_exception (e : ExcInfo) :
    (oomSignal e.message = true →
      classify_generation_exception e = ("gpu_oom", HINT_GPU_OOM)) ∧
    (oomSignal e.message = false → e.isZImageNotAvailable = true →
      classify_generation_exception e = ("dependency_missing", HINT_DEP_ZIMAGE)) ∧
    (oomSignal e.message = false → e.isZImageNotAvailable = false →
      e.isModuleNotFoundError = true →
      classify_generation_exception e = ("dependency_missing", HINT_DEP_MODULE)) ∧
    (oomSignal e.message = false → e.isZImageNotAvailable = false →
      e.isModuleNotFoundError = false → e.isFileNotFoundError = true →
      classify_generation_exception e = ("model_missing", HINT_MODEL_MISSING)) ∧
    (oomSignal e.message = false → e.isZImageNotAvailable = false →
      e.isModuleNotFoundError = false → e.isFileNotFoundError = false →
      classify_generation_exception e = ("internal_error", HINT_INTERNAL)) ∧
    FIXED_HINTS.contains (classify_generation_exception e).2 = true ∧
    (generate_image_task_error_payload e).message = (classify_generation_exception e).2 ∧
    (generate_image_task_error_payload e).code = (classify_generation_exception e).1 ∧
    (e.message ≠ "" → (generate_image_task_error_payload e).detail = some e.message) := by
  refine ⟨?_, ?_, ?_, ?_, ?_, ?_, ?_, ?_, ?_⟩
  · intro h
    simp only [classify_generation_exception]
    simp only [oomSignal] at h
    rw [if_pos h]
  · intro h hz
    simp only [classify_generation_exception]
    simp only [oomSignal] at h
    rw [if_neg (by simp [h]), if_pos hz]
  · intro h hz hm
    simp only [classify_generation_exception]
    simp only [oomSignal] at h
    rw [if_neg (by simp [h]), if_neg (by simp [hz]), if_pos hm]
  · intro h hz hm hf
    simp only [classify_generation_exception]
    simp only [oomSignal] at h
    rw [if_neg (by simp [h]), if_neg (by simp [hz]), if_neg (by simp [hm]), if_pos hf]
  · intro h hz hm hf
    simp only [classify_generation_exception]
    simp only [oomSignal] at h
    rw [if_neg (by simp [h]), if_neg (by simp [hz]), if_neg (by simp [hm]),
      if_neg (by simp [hf])]
  · simp only [classify_generation_exception]
    split
    · decide
    · split
      · decide
      · split
        · decide
        · split <;> decide
  · simp [generate_image_task_error_payload, serialize_generation_error]
  · simp [generate_image_task_error_payload, serialize_generation_error]
  · intro hmsg
    simp [generate_image_task_error_payload, serialize_generation_error, pyTruthy, hmsg]

/-- C9 witness: a CUDA out-of-memory message classifies as `gpu_oom`
with the fixed hint, regardless of exception type. -/
theorem c9_witness :
    oomSignal "CUDA error: Out of Memory" = true ∧
    classify_generation_exception ⟨"CUDA error: Out of Memory", false, false, false⟩ =
      ("gpu_oom", HINT_GPU_OOM) :=
  ⟨by decide,
    (c9_classify_generation_exception ⟨"CUDA error: Out of Memory", false, false, false⟩).1
      (by decide)⟩

/-- Two pointwise-disjoint counts, each implying a third predicate, sum
to at most the third predicate's count. -/
lemma countP_add_countP_le_countP {α : Type} (p q r : α → Bool) (l : List α)
    (hpr : ∀ x, p x = true → r x = true) (hqr : ∀ x, q x = true → r x = true)
    (hpq : ∀ x, ¬(p x = true ∧ q x = true)) :
    l.countP p + l.countP q ≤ l.countP r := by
  induction l with
  | nil => simp
  | cons a t ih =>
    rw [List.countP_cons, List.countP_cons, List.countP_cons]
    by_cases hp : p a = true <;> by_cases hq : q a = true
    · exact absurd ⟨hp, hq⟩ (hpq a)
    · have hr := hpr a hp
      simp [hp, hq, hr]
      omega
    · have hr := hqr a hq
      simp [hp, hq, hr]
      omega
    · by_cases hr : r a = true <;> simp [hp, hq, hr] <;> omega

/-- `find?` by batch id commutes with an id-preserving conditional map
over the batch table. -/
lemma findMapBatchId (l : List BatchRow) (bid : String) (g : BatchRow → BatchRow)
    (hg : ∀ b, (g b).id = b.id) :
    (l.map (fun b => if b.id = bid then g b else b)).find? (fun b => b.id = bid) =
      (l.find? (fun b => b.id = bid)).map g := by
  induction l with
  | nil => rfl
  | cons a t ih =>
    by_cases h : a.id = bid
    · rw [List.map_cons, if_pos h, List.find?_cons_of_pos _ (by simp [hg, h]),
        List.find?_cons_of_pos _ (by simp [h]), Option.map_some']
    · rw [List.map_cons, if_neg h, List.find?_cons_of_neg _ (by simp [h]),
        List.find?_cons_of_neg _ (by simp [h]), ih]

/-- `find?` by task id commutes with an id-preserving conditional map
over the task table. -/
lemma findMapTaskId (l : List TaskRow) (tid : String) (g : TaskRow → TaskRow)
    (hg : ∀ t, (g t).task_id = t.task_id) :
    (l.map (fun t => if t.task_id = tid then g t else t)).find? (fun t => t.task_id = tid) =
      (l.find? (fun t => t.task_id = tid)).map g := by
  induction l with
  | nil => rfl
  | cons a t ih =>
    by_cases h : a.task_id = tid
    · rw [List.map_cons, if_pos h, List.find?_cons_of_pos _ (by simp [hg, h]),
        List.find?_cons_of_pos _ (by simp [h]), Option.map_some']
    · rw [List.map_cons, if_neg h, List.find?_cons_of_neg _ (by simp [h]),
        List.find?_cons_of_neg _ (by simp [h]), ih]

/-- `_update_batch_counters` rewrites the batch row through
`applyBatchCounters` and touches nothing else. -/
lemma getBatch_update_batch_counters (led : Ledger) (bid : String) (now : Nat) :
    getBatch (update_batch_counters led bid now) bid =
      (getBatch led bid).map
        (applyBatchCounters (ledgerSuccessCount led bid) (ledgerFailedCount led bid) now) := by
  unfold getBatch update_batch_counters
  exact findMapBatchId led.batches bid _ (fun b => rfl)

/-- The freshly recomputed success and failed counts together never
exceed the number of task rows recorded under the batch id. -/
lemma successFailedLeRows (led : Ledger) (bid : String) :
    ledgerSuccessCount led bid + ledgerFailedCount led bid ≤ ledgerBatchRowCount led bid := by
  unfold ledgerSuccessCount ledgerFailedCount ledgerBatchRowCount
  have h := countP_add_countP_le_countP
    (fun t => t.batch_id = bid && t.status = "success")
    (fun t => t.batch_id = bid && (t.status = "error" || t.status = "cancelled"))
    (fun t => t.batch_id = bid) led.tasks
    (fun x hx => by
      simp only [Bool.and_eq_true, decide_eq_true_eq] at hx
      simp [hx.1])
    (fun x hx => by
      simp only [Bool.and_eq_true, decide_eq_true_eq] at hx
      simp [hx.1])
    (fun x hx => by
      obtain ⟨h1, h2⟩ := hx
      simp only [Bool.and_eq_true, Bool.or_eq_true, decide_eq_true_eq] at h1 h2
      rcases h2.2 with h2e | h2c
      · rw [h1.2] at h2e
        exact absurd h2e (by decide)
      · rw [h1.2] at h2c
        exact absurd h2c (by decide))
  omega

/-- C3 counterexample: the client controls the fan-out metadata, so two
distinct jobs can both be recorded into batch `"b"` with declared
`batch_size = 1`; after both succeed, the batch has
`success_count = 2 > batch_size = 1`, violating
`success_count + failed_count ≤ batch_size`, and the status is terminal
even though the sum does not *equal* `batch_size` (the code compares
with `>=`). -/
theorem c3_counterexample :
    getBatch c3ScenarioLedger "b" =
      some { id := "b", api_client_id := none, base_seed := none, batch_size := 1,
             success_count := 2, failed_count := 0, status := "success",
             completed_at := some 20 } ∧
    ¬ (∀ b ∈ c3ScenarioLedger.batches,
        b.success_count + b.failed_count ≤ b.batch_size) ∧
    (∃ b ∈ c3ScenarioLedger.batches,
      isTerminalBatchStatus b.status = true ∧
        b.success_count + b.failed_count ≠ b.batch_size) := by
  refine ⟨by decide, by decide, ?_⟩
  refine ⟨{ id := "b", api_client_id := none, base_seed := none, batch_size := 1,
            success_count := 2, failed_count := 0, status := "success",
            completed_at := some 20 }, by decide, by decide, by decide⟩

/-- C3 amended: `_update_batch_counters` recomputes the counters from
the task rows and derives status and `completed_at` exactly as claimed,
with the terminal comparison being `≥`; whenever the number of task
rows recorded under the batch does not exceed the declared
`batch_size` (as with well-formed fan-out metadata),
`success_count + failed_count ≤ batch_size` holds and the status is
terminal iff the sum equals `batch_size`. -/
theorem c3_amended_batch_counters
    (led : Ledger) (bid : String) (now : Nat) (b : BatchRow)
    (hb : getBatch led bid = some b) :
    getBatch (update_batch_counters led bid now) bid =
      some (applyBatchCounters (ledgerSuccessCount led bid) (ledgerFailedCount led bid) now b) ∧
    (∀ s f : Int, ∀ b0 : BatchRow,
      (applyBatchCounters s f now b0).success_count = s ∧
      (applyBatchCounters s f now b0).failed_count = f ∧
      (applyBatchCounters s f now b0).batch_size = b0.batch_size ∧
      (isTerminalBatchStatus (applyBatchCounters s f now b0).status = true ↔
        s + f ≥ b0.batch_size) ∧
      ((applyBatchCounters s f now b0).status = "success" ↔
        (s + f ≥ b0.batch_size ∧ f = 0)) ∧
      ((applyBatchCounters s f now b0).status = "partial" ↔
        (s + f ≥ b0.batch_size ∧ f ≠ 0)) ∧
      (¬ (s + f ≥ b0.batch_size) → (applyBatchCounters s f now b0).status = "running") ∧
      (applyBatchCounters s f now b0).completed_at =
        (if s + f ≥ b0.batch_size then some now else b0.completed_at)) ∧
    (ledgerBatchRowCount led bid ≤ b.batch_size →
      ledgerSuccessCount led bid + ledgerFailedCount led bid ≤ b.batch_size ∧
      (isTerminalBatchStatus
          (applyBatchCounters (ledgerSuccessCount led bid)
            (ledgerFailedCount led bid) now b).status = true ↔
        ledgerSuccessCount led bid + ledgerFailedCount led bid = b.batch_size)) := by
  have hprops : ∀ s f : Int, ∀ b0 : BatchRow,
      (applyBatchCounters s f now b0).success_count = s ∧
      (applyBatchCounters s f now b0).failed_count = f ∧
      (applyBatchCounters s f now b0).batch_size = b0.batch_size ∧
      (isTerminalBatchStatus (applyBatchCounters s f now b0).status = true ↔
        s + f ≥ b0.batch_size) ∧
      ((applyBatchCounters s f now b0).status = "success" ↔
        (s + f ≥ b0.batch_size ∧ f = 0)) ∧
      ((applyBatchCounters s f now b0).status = "partial" ↔
        (s + f ≥ b0.batch_size ∧ f ≠ 0)) ∧
      (¬ (s + f ≥ b0.batch_size) → (applyBatchCounters s f now b0).status = "running") ∧
      (applyBatchCounters s f now b0).completed_at =
        (if s + f ≥ b0.batch_size then some now else b0.completed_at) := by
    intro s f b0
    unfold applyBatchCounters isTerminalBatchStatus
    by_cases hge : s + f ≥ b0.batch_size
    · by_cases hf : f = 0
      · subst hf
        have hge2 : b0.batch_size ≤ s := by omega
        simp [hge, hge2]
      · simp [hge, hf]
    · by_cases hf : f = 0
      · subst hf
        have hge2 : ¬ b0.batch_size ≤ s := by omega
        simp [hge, hge2]
      · simp [hge, hf]
  refine ⟨?_, hprops, ?_⟩
  · rw [getBatch_update_batch_counters, hb, Option.map_some']
  · intro hrow
    have hle := successFailedLeRows led bid
    refine ⟨by omega, ?_⟩
    rw [(hprops (ledgerSuccessCount led bid) (ledgerFailedCount led bid) b).2.2.2.1]
    omega

/-- C3 witness: a single-image batch recorded and completed normally:
one row, counters `1 + 0 ≤ 1`, terminal exactly at equality. -/
theorem c3_witness :
    getBatch (record_generation_started ⟨[], []⟩ "w1" none none
      (some ⟨some "wb", some 0, some 1⟩) "f") "wb" =
      some { id := "wb", api_client_id := none, base_seed := none, batch_size := 1,
             success_count := 0, failed_count := 0, status := "running",
             completed_at := none } ∧
    ledgerBatchRowCount (record_generation_started ⟨[], []⟩ "w1" none none
      (some ⟨some "wb", some 0, some 1⟩) "f") "wb" ≤ 1 ∧
    ledgerSuccessCount (record_generation_started ⟨[], []⟩ "w1" none none
      (some ⟨some "wb", some 0, some 1⟩) "f") "wb" +
      ledgerFailedCount (record_generation_started ⟨[], []⟩ "w1" none none
        (some ⟨some "wb", some 0, some 1⟩) "f") "wb" ≤ 1 :=
  have h := c3_amended_batch_counters
    (record_generation_started ⟨[], []⟩ "w1" none none
      (some ⟨some "wb", some 0, some 1⟩) "f") "wb" 7
    { id := "wb", api_client_id := none, base_seed := none, batch_size := 1,
      success_count := 0, failed_count := 0, status := "running", completed_at := none }
    (by decide)
  ⟨by decide, by decide, by simpa using (h.2.2 (by decide)).1⟩

/-- `_update_batch_counters` only touches the batch table. -/
lemma tasks_update_batch_counters (led : Ledger) (bid : String) (now : Nat) :
    (update_batch_counters led bid now).tasks = led.tasks := rfl

/-- The batch-level upsert of `record_generation_started` on an
existing row: `COALESCE` keeps owner and base seed, `batch_size` is
overwritten, and the status is guarded (`pending → running`, anything
else preserved). -/
lemma getBatch_batchUpsert_existing (led : Ledger) (bid : String) (cid : Option String)
    (bs : Option Int) (size : Int) (b : BatchRow) (hb : getBatch led bid = some b) :
    getBatch (batchUpsert led bid cid bs size) bid =
      some { b with
        api_client_id := b.api_client_id.orElse (fun _ => cid)
        base_seed := b.base_seed.orElse (fun _ => bs)
        batch_size := size
        status := if b.status = "pending" then "running" else b.status } := by
  have hb2 : led.batches.find? (fun x => x.id = bid) = some b := hb
  show (batchUpsert led bid cid bs size).batches.find? (fun x => x.id = bid) = _
  unfold batchUpsert
  simp only [hb2, Option.isSome_some, if_true]
  rw [findMapBatchId led.batches bid
    (fun x => { x with
      api_client_id := x.api_client_id.orElse (fun _ => cid)
      base_seed := x.base_seed.orElse (fun _ => bs)
      batch_size := size
      status := if x.status = "pending" then "running" else x.status })
    (fun x => rfl), hb2, Option.map_some']

/-- The per-image upsert of `record_generation_started` on an existing
row: the status is overwritten to `'running'` unconditionally. -/
lemma getTask_taskUpsert_existing (led : Ledger) (tid bid2 : String) (bidx : Int)
    (seed : Option Int) (t : TaskRow) (ht : getTask led tid = some t) :
    getTask (taskUpsert led tid bid2 bidx seed) tid =
      some { t with status := "running", seed := seed } := by
  have ht2 : led.tasks.find? (fun x => x.task_id = tid) = some t := ht
  show (taskUpsert led tid bid2 bidx seed).tasks.find? (fun x => x.task_id = tid) = _
  unfold taskUpsert
  simp only [ht2, Option.isSome_some, if_true]
  rw [findMapTaskId led.tasks tid
    (fun x => { x with status := "running", seed := seed }) (fun x => rfl), ht2,
    Option.map_some']

/-- C4 counterexample: job `"t1"` in a single-item batch has reached
the terminal ledger status `'success'`; a redelivered "job started"
notification processed by `record_generation_started` resets the job
row back to the non-terminal `'running'` (its per-task upsert sets
`status = EXCLUDED.status` unconditionally), while the batch-level
status stays `'success'`. -/
theorem c4_counterexample :
    (getTask c4ScenarioAfterSuccess "t1").map (fun t => t.status) = some "success" ∧
    (getBatch c4ScenarioAfterSuccess "b").map (fun b => b.status) = some "success" ∧
    (getTask c4ScenarioAfterRestart "t1").map (fun t => t.status) = some "running" ∧
    (getBatch c4ScenarioAfterRestart "b").map (fun b => b.status) = some "success" := by
  decide

/-- C4 amended: per-job ledger statuses are *not* monotonic — a
redelivered start notification overwrites any existing job-row status,
terminal included, with `'running'`; the regression guard exists only
at batch level, where a start upsert promotes `'pending'` to
`'running'` and preserves every other batch status; and a repeated
terminal success write simply re-asserts `'success'` (idempotent on an
already-successful row). -/
theorem c4_amended_status_guard :
    (∀ (led : Ledger) (bid : String) (cid : Option String) (bs : Option Int)
        (size : Int) (b : BatchRow), getBatch led bid = some b → b.status ≠ "pending" →
      (getBatch (batchUpsert led bid cid bs size) bid).map (fun x => x.status) =
        some b.status) ∧
    (∀ (led : Ledger) (bid : String) (cid : Option String) (bs : Option Int)
        (size : Int) (b : BatchRow), getBatch led bid = some b → b.status = "pending" →
      (getBatch (batchUpsert led bid cid bs size) bid).map (fun x => x.status) =
        some "running") ∧
    (∀ (led : Ledger) (tid bid2 : String) (bidx : Int) (seed : Option Int) (t : TaskRow),
      getTask led tid = some t →
      (getTask (taskUpsert led tid bid2 bidx seed) tid).map (fun x => x.status) =
        some "running") ∧
    (∀ (led : Ledger) (tid : String) (now : Nat) (t : TaskRow),
      getTask led tid = some t →
      (getTask (record_generation_succeeded led tid now) tid).map (fun x => x.status) =
        some "success") := by
  refine ⟨?_, ?_, ?_, ?_⟩
  · intro led bid cid bs size b hb hs
    rw [getBatch_batchUpsert_existing led bid cid bs size b hb, Option.map_some']
    simp [hs]
  · intro led bid cid bs size b hb hs
    rw [getBatch_batchUpsert_existing led bid cid bs size b hb, Option.map_some']
    simp [hs]
  · intro led tid bid2 bidx seed t ht
    rw [getTask_taskUpsert_existing led tid bid2 bidx seed t ht, Option.map_some']
  · intro led tid now t ht
    have ht2 : led.tasks.find? (fun x => x.task_id = tid) = some t := ht
    have hmap := findMapTaskId led.tasks tid (fun x => { x with status := "success" })
      (fun x => rfl)
    unfold record_generation_succeeded
    rw [ht2]
    show ((update_batch_counters
        { led with tasks := led.tasks.map (fun x =>
            if x.task_id = tid then { x with status := "success" } else x) }
        t.batch_id now).tasks.find? (fun x => x.task_id = tid)).map (fun x => x.status)
      = some "success"
    rw [tasks_update_batch_counters]
    show ((led.tasks.map
        (fun x => if x.task_id = tid then { x with status := "success" } else x)).find?
        (fun x => x.task_id = tid)).map (fun x => x.status) = some "success"
    rw [hmap, ht2, Option.map_some', Option.map_some']

/-- C4 witness: in the concrete single-item scenario, the terminal
batch status survives the redelivered start notification while the job
row regresses to `'running'`, and a repeated success write re-asserts
`'success'`. -/
theorem c4_witness :
    getBatch c4ScenarioAfterSuccess "b" =
      some { id := "b", api_client_id := none, base_seed := none, batch_size := 1,
             success_count := 1, failed_count := 0, status := "success",
             completed_at := some 5 } ∧
    (getBatch (batchUpsert c4ScenarioAfterSuccess "b" none (some 0) 1) "b").map
      (fun x => x.status) = some "success" ∧
    (getTask (taskUpsert c4ScenarioAfterSuccess "t1" "b" 0 none) "t1").map
      (fun x => x.status) = some "running" ∧
    (getTask (record_generation_succeeded c4ScenarioAfterSuccess "t1" 9) "t1").map
      (fun x => x.status) = some "success" := by
  have h := c4_amended_status_guard
  refine ⟨by decide, ?_, ?_, ?_⟩
  · exact h.1 c4ScenarioAfterSuccess "b" none (some 0) 1
      { id := "b", api_client_id := none, base_seed := none, batch_size := 1,
        success_count := 1, failed_count := 0, status := "success", completed_at := some 5 }
      (by decide) (by decide)
  · exact h.2.2.1 c4ScenarioAfterSuccess "t1" "b" 0 none
      { task_id := "t1", batch_id := "b", batch_index := 0, seed := none,
        status := "success" }
      (by decide)
  · exact h.2.2.2 c4ScenarioAfterSuccess "t1" 9
      { task_id := "t1", batch_id := "b", batch_index := 0, seed := none,
        status := "success" }
      (by decide)

/-- If a filter keeps every length, every element satisfied the
predicate; contrapositive: unequal lengths exhibit a dropped element. -/
lemma exists_dropped_of_filter_length_ne {α : Type} (p : α → Bool) (l : List α)
    (h : (l.filter p).length ≠ l.length) : ∃ b ∈ l, p b = false := by
  induction l with
  | nil => simp at h
  | cons a t ih =>
    cases hp : p a
    · exact ⟨a, List.mem_cons_self a t, hp⟩
    · rw [List.filter_cons_of_pos (by simp [hp])] at h
      have h2 : (t.filter p).length ≠ t.length := by simpa using h
      obtain ⟨b, hb, hpb⟩ := ih h2
      exact ⟨b, List.mem_cons_of_mem a hb, hpb⟩

/-- Dropping a member that fails the predicate makes the filtered list
strictly shorter. -/
lemma filter_length_lt_of_dropped {α : Type} (p : α → Bool) (l : List α) (b : α)
    (hb : b ∈ l) (hpb : p b = false) : (l.filter p).length < l.length := by
  induction l with
  | nil => cases hb
  | cons a t ih =>
    rcases List.mem_cons.mp hb with rfl | hbt
    · rw [List.filter_cons_of_neg (by simp [hpb])]
      have := List.length_filter_le p t
      simp only [List.length_cons]
      omega
    · cases hp : p a
      · rw [List.filter_cons_of_neg (by simp [hp])]
        have := List.length_filter_le p t
        simp only [List.length_cons]
        omega
      · rw [List.filter_cons_of_pos (by simp [hp])]
        have := ih hbt
        simp only [List.length_cons]
        omega

/-- Characterization of a successful `DELETE` round trip: the response
is the fixed success payload, only the batch table changes (to the
filtered list), and at least one stored row matched the predicate. -/
lemma deleteFromBatches_ok (w : World) (bid : String) (fc : Option String)
    (r : DeleteResp) (w2 : World)
    (h : deleteFromBatches w bid fc = (.ok r, w2)) :
    r = ⟨bid, "deleted", "Batch deleted from history"⟩ ∧
    w2.ledger.batches = w.ledger.batches.filter (fun b => !deleteMatches bid fc b) ∧
    w2.ledger.tasks = w.ledger.tasks ∧ w2.redis = w.redis ∧
    w2.artifacts = w.artifacts ∧ w2.celeryResults = w.celeryResults ∧
    ∃ b ∈ w.ledger.batches, deleteMatches bid fc b = true := by
  unfold deleteFromBatches at h
  by_cases h0 : w.ledger.batches.length -
      (w.ledger.batches.filter (fun b => !deleteMatches bid fc b)).length = 0
  · rw [if_pos h0] at h
    simp at h
  · rw [if_neg h0] at h
    have h1 := congrArg Prod.fst h
    have h2 := congrArg Prod.snd h
    simp only at h1 h2
    refine ⟨(Except.ok.inj h1).symm, ?_, ?_, ?_, ?_, ?_, ?_⟩
    · rw [← h2]
    · rw [← h2]
    · rw [← h2]
    · rw [← h2]
    · rw [← h2]
    · have hle := List.length_filter_le (fun b => !deleteMatches bid fc b) w.ledger.batches
      have hne : (w.ledger.batches.filter (fun b => !deleteMatches bid fc b)).length ≠
          w.ledger.batches.length := by omega
      obtain ⟨b, hb, hpb⟩ := exists_dropped_of_filter_length_ne _ _ hne
      exact ⟨b, hb, by simpa using hpb⟩

/-- A failed `DELETE` round trip is exactly the 404 case and leaves the
world untouched. -/
lemma deleteFromBatches_error (w : World) (bid : String) (fc : Option String)
    (c : Nat) (w2 : World) (h : deleteFromBatches w bid fc = (.error c, w2)) :
    c = 404 ∧ w2 = w := by
  unfold deleteFromBatches at h
  by_cases h0 : w.ledger.batches.length -
      (w.ledger.batches.filter (fun b => !deleteMatches bid fc b)).length = 0
  · rw [if_pos h0] at h
    have h1 := congrArg Prod.fst h
    have h2 := congrArg Prod.snd h
    simp only at h1 h2
    exact ⟨(Except.error.inj h1).symm, h2.symm⟩
  · rw [if_neg h0] at h
    simp at h

/-- When some stored row matches, the `DELETE` succeeds with the fixed
payload and the filtered batch table. -/
lemma deleteFromBatches_succeeds (w : World) (bid : String) (fc : Option String)
    (b : BatchRow) (hb : b ∈ w.ledger.batches) (hm : deleteMatches bid fc b = true) :
    deleteFromBatches w bid fc =
      (.ok ⟨bid, "deleted", "Batch deleted from history"⟩,
        { w with ledger := { w.ledger with
            batches := w.ledger.batches.filter (fun x => !deleteMatches bid fc x) } }) := by
  unfold deleteFromBatches
  have hlt := filter_length_lt_of_dropped (fun x => !deleteMatches bid fc x)
    w.ledger.batches b hb (by simp [hm])
  rw [if_neg (by omega)]

/-- When no stored row matches, the `DELETE` affects zero rows and the
endpoint responds 404 with the world untouched. -/
lemma deleteFromBatches_noMatch (w : World) (bid : String) (fc : Option String)
    (hnone : ∀ b ∈ w.ledger.batches, deleteMatches bid fc b = false) :
    deleteFromBatches w bid fc = (.error 404, w) := by
  unfold deleteFromBatches
  have heq : w.ledger.batches.filter (fun x => !deleteMatches bid fc x) =
      w.ledger.batches :=
    List.filter_eq_self.mpr (fun b hb => by simp [hnone b hb])
  rw [heq, if_pos (by omega)]

/-- After a successful delete of `bid`, no history listing — under any
owner scope — can surface `bid` again, provided batch ids were unique
(they are a primary key in the source schema). -/
lemma gone_from_listings (w w2 : World) (bid : String) (fc0 : Option String)
    (hu : (w.ledger.batches.map (fun b => b.id)).Nodup)
    (hbatches : w2.ledger.batches =
      w.ledger.batches.filter (fun b => !deleteMatches bid fc0 b))
    (hex : ∃ b ∈ w.ledger.batches, deleteMatches bid fc0 b = true) :
    ∀ fc, bid ∉ listedBatchIds w2.ledger fc := by
  intro fc hmem
  obtain ⟨b0, hb0, hm0⟩ := hex
  unfold listedBatchIds at hmem
  obtain ⟨b, hbfilter, hbid⟩ := List.mem_map.mp hmem
  have hbmem2 : b ∈ w2.ledger.batches := (List.mem_filter.mp hbfilter).1
  rw [hbatches] at hbmem2
  obtain ⟨hbw, hnotdel⟩ := List.mem_filter.mp hbmem2
  have hb0id : b0.id = bid := by
    unfold deleteMatches at hm0
    simp only [Bool.and_eq_true, decide_eq_true_eq] at hm0
    exact hm0.1
  have hsame : b = b0 := List.inj_on_of_nodup_map hu hbw hb0 (by rw [hbid, hb0id])
  rw [hsame] at hnotdel
  simp [hm0] at hnotdel

/-- C6 counterexample: with global auth disabled, a keyed caller who is
neither the owner nor an admin (owner is client `"key_A"`, caller
resolves to `"key_B"`) deletes another client's batch successfully —
the claim's "a non-owner, non-admin caller's delete request is rejected
and deletes nothing" fails in auth-disabled mode, where the endpoint
applies no owner filter at all. -/
theorem c6_counterexample :
    soft_delete_history_item ⟨false, some "adm", ""⟩ (fun _ => some "key_B")
      ⟨some "kB", false⟩ c6World "b1" =
      (.ok ⟨"b1", "deleted", "Batch deleted from history"⟩,
        { ledger := { batches := [], tasks := [] }
          redis := ⟨[], []⟩
          artifacts := ["20240101/img.png"]
          celeryResults := [("t1", "result")] }) := by
  decide

/-- C6 amended: with global auth enabled (and batch ids unique, as they
are a primary key): a successful delete returns the fixed payload,
removes the batch from every history listing under every owner scope,
and leaves the Redis ownership cache, stored artifacts, Execution
Backend records and the ledger's per-task rows unchanged; every
rejected delete (401/403/404) leaves the whole world unchanged; an
admin, or the batch's owner, succeeds on an existing batch; and a
non-owner, non-admin caller is rejected with 404 having deleted
nothing.  (With auth disabled, any caller may delete any batch — the
counterexample.) -/
theorem c6_amended_soft_delete (s : Settings) (clientIdOf : String → Option String)
    (auth : AuthContext) (w : World) (batch_id : String)
    (hauth : s.api_enable_auth = true)
    (hu : (w.ledger.batches.map (fun b => b.id)).Nodup) :
    (∀ r w2, soft_delete_history_item s clientIdOf auth w batch_id = (.ok r, w2) →
      r = ⟨batch_id, "deleted", "Batch deleted from history"⟩ ∧
      (∀ fc, batch_id ∉ listedBatchIds w2.ledger fc) ∧
      w2.redis = w.redis ∧ w2.artifacts = w.artifacts ∧
      w2.celeryResults = w.celeryResults ∧ w2.ledger.tasks = w.ledger.tasks) ∧
    (∀ c w2, soft_delete_history_item s clientIdOf auth w batch_id = (.error c, w2) →
      w2 = w) ∧
    (auth.is_admin = true → (∃ b ∈ w.ledger.batches, b.id = batch_id) →
      (soft_delete_history_item s clientIdOf auth w batch_id).1 =
        .ok ⟨batch_id, "deleted", "Batch deleted from history"⟩) ∧
    (∀ cid, auth.is_admin = false → pyTruthy auth.key = true →
      clientIdOf (auth.key.getD "") = some cid →
      (∃ b ∈ w.ledger.batches, b.id = batch_id ∧ b.api_client_id = some cid) →
      (soft_delete_history_item s clientIdOf auth w batch_id).1 =
        .ok ⟨batch_id, "deleted", "Batch deleted from history"⟩) ∧
    (∀ cid, auth.is_admin = false → pyTruthy auth.key = true →
      clientIdOf (auth.key.getD "") = some cid →
      (∀ b ∈ w.ledger.batches, ¬(b.id = batch_id ∧ b.api_client_id = some cid)) →
      soft_delete_history_item s clientIdOf auth w batch_id = (.error 404, w)) := by
  have hdispAdmin : auth.is_admin = true →
      soft_delete_history_item s clientIdOf auth w batch_id =
        deleteFromBatches w batch_id none := by
    intro ha
    simp [soft_delete_history_item, hauth, ha]
  have hdispOwner : ∀ cid, auth.is_admin = false → pyTruthy auth.key = true →
      clientIdOf (auth.key.getD "") = some cid →
      soft_delete_history_item s clientIdOf auth w batch_id =
        deleteFromBatches w batch_id (some cid) := by
    intro cid ha hk hcid
    simp [soft_delete_history_item, hauth, ha, hk, hcid]
  have hdispNoKey : auth.is_admin = false → pyTruthy auth.key = false →
      soft_delete_history_item s clientIdOf auth w batch_id = (.error 401, w) := by
    intro ha hk
    simp [soft_delete_history_item, hauth, ha, hk]
  have hdispNoCid : auth.is_admin = false → pyTruthy auth.key = true →
      clientIdOf (auth.key.getD "") = none →
      soft_delete_history_item s clientIdOf auth w batch_id = (.error 403, w) := by
    intro ha hk hcid
    simp [soft_delete_history_item, hauth, ha, hk, hcid]
  refine ⟨?_, ?_, ?_, ?_, ?_⟩
  · intro r w2 hok
    by_cases ha : auth.is_admin
    · rw [hdispAdmin ha] at hok
      obtain ⟨hr, hb, ht, hred, hart, hcel, hex⟩ := deleteFromBatches_ok _ _ _ _ _ hok
      exact ⟨hr, gone_from_listings w w2 batch_id none hu hb hex, hred, hart, hcel, ht⟩
    · have ha2 : auth.is_admin = false := by simpa using ha
      by_cases hk : pyTruthy auth.key = true
      · cases hcid : clientIdOf (auth.key.getD "") with
        | none =>
          rw [hdispNoCid ha2 hk hcid] at hok
          simp at hok
        | some cid =>
          rw [hdispOwner cid ha2 hk hcid] at hok
          obtain ⟨hr, hb, ht, hred, hart, hcel, hex⟩ := deleteFromBatches_ok _ _ _ _ _ hok
          exact ⟨hr, gone_from_listings w w2 batch_id (some cid) hu hb hex,
            hred, hart, hcel, ht⟩
      · have hk2 : pyTruthy auth.key = false := by simpa using hk
        rw [hdispNoKey ha2 hk2] at hok
        simp at hok
  · intro c w2 herr
    by_cases ha : auth.is_admin
    · rw [hdispAdmin ha] at herr
      exact (deleteFromBatches_error _ _ _ _ _ herr).2
    · have ha2 : auth.is_admin = false := by simpa using ha
      by_cases hk : pyTruthy auth.key = true
      · cases hcid : clientIdOf (auth.key.getD "") with
        | none =>
          rw [hdispNoCid ha2 hk hcid] at herr
          have := congrArg Prod.snd herr
          simpa using this.symm
        | some cid =>
          rw [hdispOwner cid ha2 hk hcid] at herr
          exact (deleteFromBatches_error _ _ _ _ _ herr).2
      · have hk2 : pyTruthy auth.key = false := by simpa using hk
        rw [hdispNoKey ha2 hk2] at herr
        have := congrArg Prod.snd herr
        simpa using this.symm
  · intro ha hex
    obtain ⟨b, hb, hid⟩ := hex
    rw [hdispAdmin ha,
      deleteFromBatches_succeeds w batch_id none b hb (by simp [deleteMatches, hid])]
  · intro cid ha hk hcid hex
    obtain ⟨b, hb, hid, hown⟩ := hex
    rw [hdispOwner cid ha hk hcid,
      deleteFromBatches_succeeds w batch_id (some cid) b hb
        (by simp [deleteMatches, hid, hown])]
  · intro cid ha hk hcid hnone
    rw [hdispOwner cid ha hk hcid]
    refine deleteFromBatches_noMatch w batch_id (some cid) (fun b hb => ?_)
    have h := hnone b hb
    simp only [deleteMatches, Bool.and_eq_false_iff]
    by_cases h1 : b.id = batch_id
    · have h2 : ¬ b.api_client_id = some cid := fun h2 => h ⟨h1, h2⟩
      simp [h2]
    · simp [h1]

/-- C6 witness: with auth enabled, a non-owner, non-admin caller
(resolving to client `"key_B"`, batch owned by `"key_A"`) is rejected
with 404 and the world — ledger, cache, artifacts, backend records —
stays exactly as it was. -/
theorem c6_witness :
    soft_delete_history_item ⟨true, some "adm", ""⟩
      (fun k => if k = "kA" then some "key_A" else some "key_B")
      ⟨some "kB", false⟩ c6World "b1" = (.error 404, c6World) :=
  (c6_amended_soft_delete ⟨true, some "adm", ""⟩
    (fun k => if k = "kA" then some "key_A" else some "key_B")
    ⟨some "kB", false⟩ c6World "b1" rfl (by decide)).2.2.2.2 "key_B" rfl (by decide)
    (by decide) (by decide)
